import Mathlib

/-!
Verification of the stamp-die-kaart loyalty-card server against its
natural-language specification.

The repository contains three server variants, each embedded below:
* `V0` — `src/unnamed/part_000`: stamps carry a `redeemed` flag which a
  redemption flips to `true`; customer registration dedups on phone.
* `V1` — `src/unnamed/part_001` (token sub-variant): stamps carry no flag and
  are removed from the collection by a redemption; operator tokens with
  expiry authenticate stamp/redeem requests.
* `V2` — `src/server/index.js`: the customer record stores a cached `stamps`
  counter; registration dedups on email; logs are bounded to 1000 entries.

Shallow-embedding conventions, used uniformly:
* ISO-8601 timestamp strings are represented by their millisecond value as a
  `Nat`; `new Date(a) - new Date(b)` comparisons become `Nat` comparisons, and
  the calendar-day prefix `iso.slice(0,10)` / `iso.startsWith(today)` becomes
  `dayOf` (division by the number of milliseconds per UTC day).
* Request fields read with JavaScript truthiness (`if (!x)`) are `Option
  String`, `none` standing for an absent or empty value.
* `JSON.parse` of the on-disk file is abstracted as an `Option`/parse outcome
  handed to the load function; `none` is an absent or malformed file.
* The process-wide mutable `db` object becomes explicit state passing: every
  route handler is a pure function from the pre-state (plus the request and
  the generated uuids/clock reading) to the post-state, an outcome and the
  list of SSE events it emits.  Handlers that return early before mutating
  leave the state component equal to the input state, exactly as the source
  returns before touching `db`.
* `Array.prototype.sort` with an ascending numeric comparator is rendered by
  `List.insertionSort` (both are stable ascending sorts).
-/

namespace StampDieKaart

/-- Milliseconds per UTC calendar day. -/
def msPerDay : Nat := 86400000

/-- Calendar day of a timestamp: renders the `iso.slice(0,10)` / `iso.startsWith(today)`
day-prefix comparison of UTC ISO strings used by the sources. -/
def dayOf (t : Nat) : Nat := t / msPerDay

/-- Mutate the first element satisfying `p` in place, as JavaScript's
`const x = arr.find(p); x.field = v;` does. -/
def updateFirst {α : Type} (p : α → Bool) (f : α → α) : List α → List α
  | [] => []
  | x :: xs => if p x then f x :: xs else x :: updateFirst p f xs

namespace V1

/-- Customer record of `src/unnamed/part_001` (`POST /api/customers`). -/
structure Customer where
  id : String
  name : String
  phone : String
  email : String
  createdAt : Nat
deriving DecidableEq

/-- Stamp record of `src/unnamed/part_001` (`POST /api/stamps`): no `redeemed`
flag; redemption removes stamps from the collection instead. -/
structure Stamp where
  id : String
  customerId : String
  ts : Nat
  operator : String
deriving DecidableEq

/-- Redemption record of `src/unnamed/part_001` (`POST /api/redeem`). -/
structure Redemption where
  id : String
  customerId : String
  ts : Nat
  operator : String
  note : String
deriving DecidableEq

/-- Operator token of `src/unnamed/part_001` (`POST /api/operators/login`). -/
structure TokenRec where
  token : String
  operatorId : String
  createdAt : Nat
  expiresAt : Nat
deriving DecidableEq

/-- Operator record of `src/unnamed/part_001` (`POST /api/operators`). -/
structure OperatorRec where
  id : String
  name : String
  pinHash : String
  createdAt : Nat
deriving DecidableEq

/-- Log entry of `src/unnamed/part_001`; the heterogeneous extra fields of the
pushed objects appear as options. -/
structure LogEntry where
  type : String
  ts : Nat
  customerId : Option String := none
  operator : Option String := none
  stampId : Option String := none
  redemptionId : Option String := none
deriving DecidableEq

/-- The persisted document of `src/unnamed/part_001`. -/
structure Db where
  customers : List Customer := []
  stamps : List Stamp := []
  redemptions : List Redemption := []
  logs : List LogEntry := []
  apiKeys : List String := []
  operators : List OperatorRec := []
  tokens : List TokenRec := []
deriving DecidableEq

/-- The empty document `readDB` initializes on a read failure
(`src/unnamed/part_001` lines 27-37). -/
def emptyDb : Db := {}

/-- `readDB` of `src/unnamed/part_001`: parse the on-disk file; on any failure
(absent or corrupt file) return the empty structure.  The parse outcome is the
`Option Db` argument, `none` for absent-or-malformed. -/
def readDB (disk : Option Db) : Db := disk.getD emptyDb

/-- `stampsTodayForCustomer` of `src/unnamed/part_001`: stamps of this customer
whose `ts` falls on today's calendar day. -/
def stampsTodayForCustomer (db : Db) (customerId : String) (now : Nat) : Nat :=
  (db.stamps.filter (fun s => s.customerId == customerId && dayOf s.ts == dayOf now)).length

/-- Customer resolution shared by `POST /api/stamps` and `POST /api/redeem` of
`src/unnamed/part_001`: by id when `customerId` is given, otherwise by phone. -/
def findCustomer (db : Db) (customerId phone : Option String) : Option Customer :=
  match customerId with
  | some cid => db.customers.find? (fun c => c.id == cid)
  | none =>
    match phone with
    | some p => db.customers.find? (fun c => c.phone == p)
    | none => none

/-- Token half of `getOperatorFromRequest` (`src/unnamed/part_001` lines 82-93):
look the bearer token up in `db.tokens`, reject it when absent or expired, and
resolve the owning operator's name. -/
def resolveToken (db : Db) (token : Option String) (now : Nat) : Option String :=
  match token with
  | none => none
  | some tk =>
    match db.tokens.find? (fun t => t.token == tk) with
    | none => none
    | some t =>
      if t.expiresAt < now then none
      else
        match db.operators.find? (fun o => o.id == t.operatorId) with
        | none => none
        | some op => some op.name

/-- `getOperatorFromRequest` of `src/unnamed/part_001` lines 74-94: a valid
admin API key resolves immediately (operator name from the `x-operator` header,
defaulting to `"api"`); otherwise the bearer/`x-token` value is checked against
the stored tokens. -/
def getOperatorFromRequest (allowed : List String) (apiKey xOperator token : Option String)
    (db : Db) (now : Nat) : Option String :=
  match apiKey with
  | some k =>
    if allowed.contains k then some (xOperator.getD "api")
    else resolveToken db token now
  | none => resolveToken db token now

/-- SSE events emitted by `src/unnamed/part_001`. -/
inductive Event where
  | stamp (customerId : String) (stampsTotal : Nat) (operator : String)
  | redeem (customerId : String) (redemptionId : String)
deriving DecidableEq

/-- Outcome of `POST /api/stamps` in `src/unnamed/part_001`. -/
inductive StampOutcome where
  | notFound
  | rateLimited (todayCount : Nat)
  | ok (stamp : Stamp) (stampsTotal : Nat)
deriving DecidableEq

/-- State, outcome and emitted events of one `POST /api/stamps` request. -/
structure StampStep where
  db : Db
  out : StampOutcome
  events : List Event
deriving DecidableEq

/-- `POST /api/stamps` of `src/unnamed/part_001` (lines 181-198): resolve the
customer, refuse with 429 and the current `todayCount` when three or more
stamps were already created today, else append the stamp and a log entry and
emit the SSE event. -/
def addStamp (db : Db) (customerId phone : Option String) (operator : String)
    (stampId : String) (now : Nat) : StampStep :=
  match findCustomer db customerId phone with
  | none => ⟨db, .notFound, []⟩
  | some customer =>
    let todayCount := stampsTodayForCustomer db customer.id now
    if 3 ≤ todayCount then ⟨db, .rateLimited todayCount, []⟩
    else
      let stamp : Stamp := ⟨stampId, customer.id, now, operator⟩
      let db' : Db := { db with
        stamps := db.stamps ++ [stamp],
        logs := db.logs ++ [⟨"stamp", now, some customer.id, some operator, some stampId, none⟩] }
      let stampsTotal := (db'.stamps.filter (fun s => s.customerId == customer.id)).length
      ⟨db', .ok stamp stampsTotal, [.stamp customer.id stampsTotal operator]⟩

/-- Ascending order on stamp timestamps, the comparator
`(a,b) => new Date(a.ts) - new Date(b.ts)` of the redeem route. -/
def byTs : Stamp → Stamp → Prop := fun a b => a.ts ≤ b.ts

instance : DecidableRel byTs := fun a b => Nat.decLe a.ts b.ts

instance : IsTotal Stamp byTs := ⟨fun a b => Nat.le_total a.ts b.ts⟩

instance : IsTrans Stamp byTs := ⟨fun _ _ _ => Nat.le_trans⟩

/-- Outcome of `POST /api/redeem` in `src/unnamed/part_001`. -/
inductive RedeemOutcome where
  | notFound
  | insufficient (current required : Nat)
  | ok (redemption : Redemption)
deriving DecidableEq

/-- State, outcome and emitted events of one `POST /api/redeem` request. -/
structure RedeemStep where
  db : Db
  out : RedeemOutcome
  events : List Event
deriving DecidableEq

/-- `POST /api/redeem` of `src/unnamed/part_001` (lines 202-221): resolve the
customer; refuse with `{current, required}` when the customer's stamp count is
below the threshold (`REWARD_THRESHOLD`, default 10); otherwise delete the
`threshold` oldest stamps, append the redemption and a log entry and emit the
SSE event. -/
def redeem (db : Db) (customerId phone : Option String) (operator note : String)
    (redemptionId : String) (threshold : Nat) (now : Nat) : RedeemStep :=
  match findCustomer db customerId phone with
  | none => ⟨db, .notFound, []⟩
  | some customer =>
    let customerStamps := db.stamps.filter (fun s => s.customerId == customer.id)
    if customerStamps.length < threshold then
      ⟨db, .insufficient customerStamps.length threshold, []⟩
    else
      let sorted := customerStamps.insertionSort byTs
      let toRemoveIds := (sorted.take threshold).map (fun s => s.id)
      let redemption : Redemption := ⟨redemptionId, customer.id, now, operator, note⟩
      let db' : Db := { db with
        stamps := db.stamps.filter (fun s => !toRemoveIds.contains s.id),
        redemptions := db.redemptions ++ [redemption],
        logs := db.logs ++ [⟨"redeem", now, some customer.id, some operator, none, some redemptionId⟩] }
      ⟨db', .ok redemption, [.redeem customer.id redemptionId]⟩

/-- Outcome of a request that passes through `requireOperatorOrApiKey`. -/
inductive Authed (ω : Type) where
  | unauthorized
  | handled (out : ω)
deriving DecidableEq

/-- `requireOperatorOrApiKey` composed with the `POST /api/stamps` handler:
401 with no state change and no event when no operator resolves. -/
def stampsEndpoint (allowed : List String) (apiKey xOperator token : Option String)
    (db : Db) (customerId phone : Option String) (stampId : String) (now : Nat) :
    Db × Authed StampOutcome × List Event :=
  match getOperatorFromRequest allowed apiKey xOperator token db now with
  | none => (db, .unauthorized, [])
  | some operator =>
    let r := addStamp db customerId phone operator stampId now
    (r.db, .handled r.out, r.events)

/-- `requireOperatorOrApiKey` composed with the `POST /api/redeem` handler. -/
def redeemEndpoint (allowed : List String) (apiKey xOperator token : Option String)
    (db : Db) (customerId phone : Option String) (note redemptionId : String)
    (threshold : Nat) (now : Nat) : Db × Authed RedeemOutcome × List Event :=
  match getOperatorFromRequest allowed apiKey xOperator token db now with
  | none => (db, .unauthorized, [])
  | some operator =>
    let r := redeem db customerId phone operator note redemptionId threshold now
    (r.db, .handled r.out, r.events)

end V1

namespace V0

/-- Customer record of `src/unnamed/part_000` (`POST /api/customers`). -/
structure Customer where
  id : String
  naam : String
  phone : String
  createdAt : Nat
deriving DecidableEq

/-- Stamp record of `src/unnamed/part_000`: carries a `redeemed` flag and an
optional `redeemedAt`, set by the redeem route. -/
structure Stamp where
  id : String
  customerId : String
  createdAt : Nat
  redeemed : Bool
  redeemedAt : Option Nat := none
  operator : String
deriving DecidableEq

/-- Redemption record of `src/unnamed/part_000` (`POST /api/redeem`):
references the redeemed stamp ids in order. -/
structure Redemption where
  id : String
  customerId : String
  stampIds : List String
  count : Nat
  operator : String
  createdAt : Nat
deriving DecidableEq

/-- Log entry of `src/unnamed/part_000`; the `count` field is present only on
redeem log entries. -/
structure LogEntry where
  id : String
  type : String
  customerId : String
  operator : String
  count : Option Nat := none
  timestamp : Nat
deriving DecidableEq

/-- The persisted document of `src/unnamed/part_000`. -/
structure Db where
  customers : List Customer := []
  stamps : List Stamp := []
  redemptions : List Redemption := []
  logs : List LogEntry := []
  apiKeys : List String := []
deriving DecidableEq

/-- `readDb` of `src/unnamed/part_000` (lines 22-30): parse the on-disk file;
on failure (absent or malformed, the `none` case of the parse outcome) the
caught error is logged and rethrown to the caller — no empty document is
substituted. -/
def readDb (disk : Option Db) : Except Unit Db :=
  match disk with
  | some d => Except.ok d
  | none => Except.error ()

/-- Outcome of `POST /api/customers` in `src/unnamed/part_000`. -/
inductive RegisterOutcome where
  | validationError
  | existing (customer : Customer)
  | created (customer : Customer)
deriving DecidableEq

/-- State and outcome of one `POST /api/customers` request. -/
structure RegisterStep where
  db : Db
  out : RegisterOutcome
deriving DecidableEq

/-- `POST /api/customers` of `src/unnamed/part_000` (lines 77-109): require
`naam` and `phone`; return the existing customer when one with this phone is
already present (dedupe on phone), else append a fresh customer. -/
def createCustomer (db : Db) (naam phone : Option String) (newId : String) (now : Nat) :
    RegisterStep :=
  match naam, phone with
  | some naamV, some phoneV =>
    match db.customers.find? (fun c => c.phone == phoneV) with
    | some customer => ⟨db, .existing customer⟩
    | none =>
      let customer : Customer := ⟨newId, naamV, phoneV, now⟩
      ⟨{ db with customers := db.customers ++ [customer] }, .created customer⟩
  | _, _ => ⟨db, .validationError⟩

/-- Customer resolution of `src/unnamed/part_000` stamp/redeem routes:
`(customerId && c.id === customerId) || (phone && c.phone === phone)`. -/
def findCustomer (db : Db) (customerId phone : Option String) : Option Customer :=
  db.customers.find? (fun c =>
    (match customerId with | some cid => c.id == cid | none => false) ||
    (match phone with | some p => c.phone == p | none => false))

/-- Outcome of `POST /api/stamps` in `src/unnamed/part_000`. -/
inductive StampOutcome where
  | badRequest
  | notFound
  | rateLimited
  | ok (stamp : Stamp)
deriving DecidableEq

/-- State and outcome of one `POST /api/stamps` request. -/
structure StampStep where
  db : Db
  out : StampOutcome
deriving DecidableEq

/-- `POST /api/stamps` of `src/unnamed/part_000` (lines 150-212): resolve the
customer, count this customer's stamps created today (redeemed or not), refuse
with 429 when three or more, else append the stamp (with `redeemed := false`)
and a log entry. -/
def addStamp (db : Db) (customerId phone : Option String) (operator : String)
    (stampId logId : String) (now : Nat) : StampStep :=
  if customerId.isNone && phone.isNone then ⟨db, .badRequest⟩
  else
    match findCustomer db customerId phone with
    | none => ⟨db, .notFound⟩
    | some customer =>
      let stampsToday :=
        (db.stamps.filter (fun s => s.customerId == customer.id && dayOf s.createdAt == dayOf now)).length
      if 3 ≤ stampsToday then ⟨db, .rateLimited⟩
      else
        let stamp : Stamp :=
          { id := stampId, customerId := customer.id, createdAt := now,
            redeemed := false, operator := operator }
        ⟨{ db with
            stamps := db.stamps ++ [stamp],
            logs := db.logs ++ [⟨logId, "stamp", customer.id, operator, none, now⟩] },
          .ok stamp⟩

/-- Ascending order on stamp creation times, the comparator
`(a,b) => new Date(a.createdAt) - new Date(b.createdAt)` of the redeem route. -/
def byCreatedAt : Stamp → Stamp → Prop := fun a b => a.createdAt ≤ b.createdAt

instance : DecidableRel byCreatedAt := fun a b => Nat.decLe a.createdAt b.createdAt

instance : IsTotal Stamp byCreatedAt := ⟨fun a b => Nat.le_total a.createdAt b.createdAt⟩

instance : IsTrans Stamp byCreatedAt := ⟨fun _ _ _ => Nat.le_trans⟩

/-- Outcome of `POST /api/redeem` in `src/unnamed/part_000`. -/
inductive RedeemOutcome where
  | badRequest
  | notFound
  | insufficient (has requested : Nat)
  | ok (redemption : Redemption)
deriving DecidableEq

/-- State and outcome of one `POST /api/redeem` request. -/
structure RedeemStep where
  db : Db
  out : RedeemOutcome
deriving DecidableEq

/-- The mutation a redemption applies to one stamp record
(`s.redeemed = true; s.redeemedAt = ...` when selected). -/
def markRedeemed (redeemedStampIds : List String) (now : Nat) (s : Stamp) : Stamp :=
  if redeemedStampIds.contains s.id then { s with redeemed := true, redeemedAt := some now }
  else s

/-- `POST /api/redeem` of `src/unnamed/part_000` (lines 215-294): resolve the
customer; sort their non-redeemed stamps oldest-first; refuse when fewer than
`count` remain; else mark the `count` oldest redeemed, append a redemption
referencing their ids and a log entry. -/
def redeem (db : Db) (customerId phone : Option String) (count : Nat) (operator : String)
    (redemptionId logId : String) (now : Nat) : RedeemStep :=
  if customerId.isNone && phone.isNone then ⟨db, .badRequest⟩
  else if count < 1 then ⟨db, .badRequest⟩
  else
    match findCustomer db customerId phone with
    | none => ⟨db, .notFound⟩
    | some customer =>
      let unredeemedStamps :=
        (db.stamps.filter (fun s => s.customerId == customer.id && !s.redeemed)).insertionSort byCreatedAt
      if unredeemedStamps.length < count then
        ⟨db, .insufficient unredeemedStamps.length count⟩
      else
        let redeemedStampIds := (unredeemedStamps.take count).map (fun s => s.id)
        let redemption : Redemption := ⟨redemptionId, customer.id, redeemedStampIds, count, operator, now⟩
        ⟨{ db with
            stamps := db.stamps.map (markRedeemed redeemedStampIds now),
            redemptions := db.redemptions ++ [redemption],
            logs := db.logs ++ [⟨logId, "redeem", customer.id, operator, some count, now⟩] },
          .ok redemption⟩

/-- Payload of `GET /api/customers` in `src/unnamed/part_000`: the customer
plus its derived stamp counts. -/
structure CustomerView where
  customer : Customer
  stampsTotal : Nat
  stampsToday : Nat
deriving DecidableEq

/-- `GET /api/customers` of `src/unnamed/part_000` (lines 112-147): find the
customer by phone or id, then derive `stampsTotal` as the count of this
customer's non-redeemed stamps and `stampsToday` as the subset created today. -/
def getCustomer (db : Db) (phone idq : Option String) (now : Nat) : Option CustomerView :=
  match db.customers.find? (fun c =>
      (match phone with | some p => c.phone == p | none => false) ||
      (match idq with | some i => c.id == i | none => false)) with
  | none => none
  | some customer =>
    let customerStamps := db.stamps.filter (fun s => s.customerId == customer.id && !s.redeemed)
    some ⟨customer, customerStamps.length,
      (customerStamps.filter (fun s => dayOf s.createdAt == dayOf now)).length⟩

end V0

namespace V2

/-- Customer record of `src/server/index.js` (`POST /api/customers`): stores a
cached `stamps` counter, initialised to 0 at registration, incremented by the
stamp route and decremented by the redeem route. -/
structure Customer where
  id : String
  name : String
  email : String
  phone : String
  stamps : Int
  createdAt : Nat
deriving DecidableEq

/-- Stamp record of `src/server/index.js`: no `redeemed` flag; the collection
is only ever appended to. -/
structure Stamp where
  id : String
  customerId : String
  timestamp : Nat
deriving DecidableEq

/-- Redemption record of `src/server/index.js` (`POST /api/redeem`). -/
structure Redemption where
  id : String
  customerId : String
  stampsUsed : Int
  timestamp : Nat
deriving DecidableEq

/-- Log entry created by `addLog` of `src/server/index.js`; the free-form
`details` payload is not referenced by any claim and is not modelled. -/
structure LogEntry where
  id : String
  timestamp : Nat
  action : String
deriving DecidableEq

/-- Operator token of `src/server/index.js` (used by `/api/operators/revoke`). -/
structure TokenRec where
  token : String
  operatorId : String
  operatorName : String
deriving DecidableEq

/-- The persisted document of `src/server/index.js`. -/
structure Db where
  customers : List Customer := []
  stamps : List Stamp := []
  redemptions : List Redemption := []
  logs : List LogEntry := []
  apiKeys : List String := []
  adminApiKeys : List String := []
  tokens : List TokenRec := []
deriving DecidableEq

/-- The initial in-memory document of `src/server/index.js` (lines 17-25). -/
def emptyDb : Db := {}

/-- `loadDatabase` of `src/server/index.js` (lines 31-41): when the file exists
and parses, replace the in-memory document with its contents; when it is absent
or the parse throws, the error is caught and the current (initially empty)
document is kept.  `disk` is the parse outcome, `none` for absent-or-malformed. -/
def loadDatabase (current : Db) (disk : Option Db) : Db := disk.getD current

/-- `addLog` of `src/server/index.js` (lines 76-89): append the entry, then
keep only the most recent 1000 entries (`db.logs.slice(-1000)`). -/
def addLog (logs : List LogEntry) (log : LogEntry) : List LogEntry :=
  let l := logs ++ [log]
  if 1000 < l.length then l.drop (l.length - 1000) else l

/-- SSE events emitted by `src/server/index.js`. -/
inductive Event where
  | customerRegistered (customer : Customer)
  | stampAdded (customerId : String) (stamps : Int)
  | redemption (customerId : String) (stamps stampsUsed : Int)
deriving DecidableEq

/-- Outcome of `POST /api/customers` in `src/server/index.js`. -/
inductive RegisterOutcome where
  | validationError
  | conflict (customerId : String)
  | ok (customer : Customer)
deriving DecidableEq

/-- State, outcome and emitted events of one `POST /api/customers` request. -/
structure RegisterStep where
  db : Db
  out : RegisterOutcome
  events : List Event
deriving DecidableEq

/-- `POST /api/customers` of `src/server/index.js` (lines 159-194): require
`name` and `email`; reject with 409 when a customer with this email exists
(dedupe is on email, not phone); else append a customer with `stamps := 0`. -/
def registerCustomer (db : Db) (name email phone : Option String)
    (newId logId : String) (now : Nat) : RegisterStep :=
  match name, email with
  | some nameV, some emailV =>
    match db.customers.find? (fun c => c.email == emailV) with
    | some existing => ⟨db, .conflict existing.id, []⟩
    | none =>
      let customer : Customer := ⟨newId, nameV, emailV, phone.getD "", 0, now⟩
      let db' : Db := { db with
        customers := db.customers ++ [customer],
        logs := addLog db.logs ⟨logId, now, "customer_registered"⟩ }
      ⟨db', .ok customer, [.customerRegistered customer]⟩
  | _, _ => ⟨db, .validationError, []⟩

/-- Outcome of `POST /api/stamps` in `src/server/index.js`: note there is no
daily rate limit in this variant. -/
inductive StampOutcome where
  | badRequest
  | notFound
  | ok (stamp : Stamp) (stamps : Int)
deriving DecidableEq

/-- State, outcome and emitted events of one `POST /api/stamps` request. -/
structure StampStep where
  db : Db
  out : StampOutcome
  events : List Event
deriving DecidableEq

/-- `POST /api/stamps` of `src/server/index.js` (lines 202-242): find the
customer by id, append a stamp record and increment the customer's cached
`stamps` counter in place. -/
def addStamp (db : Db) (customerId : Option String) (stampId logId : String)
    (now : Nat) : StampStep :=
  match customerId with
  | none => ⟨db, .badRequest, []⟩
  | some cid =>
    match db.customers.find? (fun c => c.id == cid) with
    | none => ⟨db, .notFound, []⟩
    | some customer =>
      let stamp : Stamp := ⟨stampId, cid, now⟩
      let db' : Db := { db with
        stamps := db.stamps ++ [stamp],
        customers := updateFirst (fun c => c.id == cid)
          (fun c => { c with stamps := c.stamps + 1 }) db.customers,
        logs := addLog db.logs ⟨logId, now, "stamp_added"⟩ }
      ⟨db', .ok stamp (customer.stamps + 1), [.stampAdded cid (customer.stamps + 1)]⟩

/-- Outcome of `POST /api/redeem` in `src/server/index.js`. -/
inductive RedeemOutcome where
  | badRequest
  | notFound
  | insufficient (current required : Int)
  | ok (redemption : Redemption) (stamps : Int)
deriving DecidableEq

/-- State, outcome and emitted events of one `POST /api/redeem` request. -/
structure RedeemStep where
  db : Db
  out : RedeemOutcome
  events : List Event
deriving DecidableEq

/-- `POST /api/redeem` of `src/server/index.js` (lines 245-294):
`stampsRequired` is taken from the request body (the caller substitutes the
default 10 when the field is absent) with no positivity check; when the cached
counter is at least `stampsRequired` the redemption is recorded with
`stampsUsed := stampsRequired` and the counter is decremented by it.  The
stamp collection itself is not touched. -/
def redeem (db : Db) (customerId : Option String) (stampsRequired : Int)
    (redemptionId logId : String) (now : Nat) : RedeemStep :=
  match customerId with
  | none => ⟨db, .badRequest, []⟩
  | some cid =>
    match db.customers.find? (fun c => c.id == cid) with
    | none => ⟨db, .notFound, []⟩
    | some customer =>
      if customer.stamps < stampsRequired then
        ⟨db, .insufficient customer.stamps stampsRequired, []⟩
      else
        let redemption : Redemption := ⟨redemptionId, cid, stampsRequired, now⟩
        let db' : Db := { db with
          redemptions := db.redemptions ++ [redemption],
          customers := updateFirst (fun c => c.id == cid)
            (fun c => { c with stamps := c.stamps - stampsRequired }) db.customers,
          logs := addLog db.logs ⟨logId, now, "redemption"⟩ }
        ⟨db', .ok redemption (customer.stamps - stampsRequired),
          [.redemption cid (customer.stamps - stampsRequired) stampsRequired]⟩

/-- The balance the read routes of `src/server/index.js` report for a
customer: the cached `stamps` field of the customer record, as returned by
`GET /api/customers`, `GET /api/stats/overview` and `GET /wallet/:customerId`. -/
def reportedBalance (db : Db) (cid : String) : Option Int :=
  (db.customers.find? (fun c => c.id == cid)).map (fun c => c.stamps)

end V2

/-! ### Concrete sample data for witnesses and counterexamples -/

/-- Ten-stamp customer document for exercising the part_000 redeem route. -/
def fifoDb : V0.Db :=
  { customers := [⟨"cust1", "Jan", "0600000000", 0⟩],
    stamps := (List.range 10).map
      (fun i => ⟨"s" ++ toString i, "cust1", i + 1, false, none, "op"⟩) }

/-- Customer with three stamps issued today, for the rate-limit witness. -/
def capDb : V1.Db :=
  { customers := [⟨"cust1", "Jan", "0600000000", "", 0⟩],
    stamps := [⟨"s1", "cust1", 100, "op"⟩, ⟨"s2", "cust1", 200, "op"⟩,
               ⟨"s3", "cust1", 300, "op"⟩] }

/-- part_000 customer with three stamps issued today, one of them already
redeemed, for the part_000 rate-limit witness (the cap counts redeemed and
non-redeemed stamps alike). -/
def capDb0 : V0.Db :=
  { customers := [⟨"cust1", "Jan", "0600000000", 0⟩],
    stamps := [⟨"s1", "cust1", 100, false, none, "op"⟩,
               ⟨"s2", "cust1", 200, true, some 250, "op"⟩,
               ⟨"s3", "cust1", 300, false, none, "op"⟩] }

/-- part_001 customer with no stamps yet, for the log-append witness. -/
def logDb : V1.Db :=
  { customers := [⟨"cust1", "Jan", "0600000000", "", 0⟩] }

/-- Document after registering Alice in the cached-counter variant. -/
def dupDb : V2.Db :=
  (V2.registerCustomer V2.emptyDb (some "Alice") (some "alice@x") (some "0600000000")
    "c1" "l1" 0).db

/-- Ten-stamp customer document for the part_001 redeem route. -/
def delDb : V1.Db :=
  { customers := [⟨"cust1", "Jan", "0600000000", "", 0⟩],
    stamps := (List.range 10).map (fun i => ⟨"s" ++ toString i, "cust1", i + 1, "op"⟩) }

/-- Two-stamp customer document for the part_000 immutability witness. -/
def monoDb : V0.Db :=
  { customers := [⟨"cust1", "Jan", "0600000000", 0⟩],
    stamps := [⟨"s1", "cust1", 1, false, none, "op"⟩,
               ⟨"s2", "cust1", 2, true, some 3, "op"⟩] }

/-- Cached-counter document built by the variant's own operations: one
registration followed by `n` stamp requests. -/
def syncDb : Nat → V2.Db
  | 0 => dupDb
  | n + 1 => (V2.addStamp (syncDb n) (some "c1") ("s" ++ toString n) ("sl" ++ toString n) 0).db

/-- The cached-counter document after redeeming 10 stamps from a customer who
accrued 10 through the stamp route. -/
def desyncStep : V2.RedeemStep := V2.redeem (syncDb 10) (some "c1") 10 "r1" "rl" 99

/-- Nine-stamp customer document for the insufficient-balance witness. -/
def nineDb : V1.Db :=
  { customers := [⟨"cust1", "Jan", "0600000000", "", 0⟩],
    stamps := (List.range 9).map (fun i => ⟨"s" ++ toString i, "cust1", i + 1, "op"⟩) }

/-- Document holding exactly 1000 log entries, for the log-bound counterexample. -/
def fullLogDb : V0.Db :=
  { customers := [⟨"cust1", "Jan", "0600000000", 0⟩],
    logs := (List.range 1000).map (fun i => ⟨"l" ++ toString i, "stamp", "cust1", "op", none, 0⟩) }

/-- Document holding one operator and one token that expired at time 5. -/
def expiredDb : V1.Db :=
  { customers := [⟨"cust1", "Jan", "0600000000", "", 0⟩],
    operators := [⟨"op1", "Kees", "hash", 0⟩],
    tokens := [⟨"tok1", "op1", 0, 5⟩] }

/-- Cached-counter document with a zero-balance customer, for the
negative-redemption witness. -/
def zeroDb : V2.Db :=
  { customers := [⟨"c1", "Alice", "alice@x", "06", 0, 0⟩] }

/-! ### Helper lemmas -/

/-- In a list sorted ascending by `key`, anything strictly smaller than a
member of the first `n` elements is itself among the first `n` elements. -/
theorem mem_take_of_pairwise_key {α : Type} (key : α → Nat) {l : List α}
    (h : l.Pairwise (fun a b => key a ≤ key b)) {n : Nat} {a b : α}
    (ha : a ∈ l) (hb : b ∈ l.take n) (hlt : key a < key b) : a ∈ l.take n := by
  have hsplit := List.take_append_drop n l
  rw [← hsplit] at h ha
  rcases List.mem_append.mp ha with h1 | h2
  · exact h1
  · exact absurd ((List.pairwise_append.mp h).2.2 b hb a h2) (Nat.not_le.mpr hlt)

/-- Updating the first element satisfying `p` with a `p`-preserving function
commutes with `find?`. -/
theorem find?_updateFirst {α : Type} (p : α → Bool) (f : α → α)
    (hp : ∀ x, p x = true → p (f x) = true) (l : List α) :
    (updateFirst p f l).find? p = (l.find? p).map f := by
  induction l with
  | nil => rfl
  | cons x xs ih =>
    by_cases hx : p x = true
    · simp [updateFirst, hx, List.find?_cons, hp x hx]
    · simp only [updateFirst, hx, if_false, Bool.false_eq_true, List.find?_cons]
      exact ih

/-- `markRedeemed` never changes a stamp's id. -/
theorem markRedeemed_id (ids : List String) (now : Nat) (s : V0.Stamp) :
    (V0.markRedeemed ids now s).id = s.id := by
  unfold V0.markRedeemed
  split <;> rfl

/-- Branch characterization of the part_000 redeem route: either it fails and
returns the document untouched, or the customer resolved and it returns the
fully mutated document together with the redemption. -/
theorem redeem_cases_part000 (db : V0.Db) (customerId phone : Option String) (count : Nat)
    (operator redemptionId logId : String) (now : Nat) :
    ((V0.redeem db customerId phone count operator redemptionId logId now).db = db ∧
      ∀ r, (V0.redeem db customerId phone count operator redemptionId logId now).out ≠ .ok r) ∨
    (∃ customer, V0.findCustomer db customerId phone = some customer ∧
      count ≤ (db.stamps.filter (fun s => s.customerId == customer.id && !s.redeemed)).length ∧
      V0.redeem db customerId phone count operator redemptionId logId now =
        ⟨{ db with
            stamps := db.stamps.map (V0.markRedeemed
              ((((db.stamps.filter (fun s => s.customerId == customer.id && !s.redeemed)).insertionSort
                V0.byCreatedAt).take count).map (fun s => s.id)) now),
            redemptions := db.redemptions ++ [⟨redemptionId, customer.id,
              (((db.stamps.filter (fun s => s.customerId == customer.id && !s.redeemed)).insertionSort
                V0.byCreatedAt).take count).map (fun s => s.id), count, operator, now⟩],
            logs := db.logs ++ [⟨logId, "redeem", customer.id, operator, some count, now⟩] },
          .ok ⟨redemptionId, customer.id,
            (((db.stamps.filter (fun s => s.customerId == customer.id && !s.redeemed)).insertionSort
              V0.byCreatedAt).take count).map (fun s => s.id), count, operator, now⟩⟩) := by
  by_cases h1 : (customerId.isNone && phone.isNone) = true
  · refine Or.inl ⟨?_, fun r h => ?_⟩
    · simp [V0.redeem, h1]
    · simp [V0.redeem, h1] at h
  · by_cases h2 : count < 1
    · refine Or.inl ⟨?_, fun r h => ?_⟩
      · simp [V0.redeem, h1, h2]
      · simp [V0.redeem, h1, h2] at h
    · cases hfind : V0.findCustomer db customerId phone with
      | none =>
        refine Or.inl ⟨?_, fun r h => ?_⟩
        · simp [V0.redeem, h1, h2, hfind]
        · simp [V0.redeem, h1, h2, hfind] at h
      | some customer =>
        by_cases h3 :
            (db.stamps.filter (fun s => s.customerId == customer.id && !s.redeemed)).length < count
        · refine Or.inl ⟨?_, fun r h => ?_⟩
          · simp [V0.redeem, h1, h2, hfind, h3]
          · simp [V0.redeem, h1, h2, hfind, h3] at h
        · refine Or.inr ⟨customer, rfl, ?_, ?_⟩
          · omega
          · simp [V0.redeem, h1, h2, hfind, h3]

/-- Branch characterization of the part_000 stamp route: either it fails and
returns the document untouched, or it appends exactly one fresh non-redeemed
stamp and one log entry. -/
theorem addStamp_cases_part000 (db : V0.Db) (customerId phone : Option String)
    (operator stampId logId : String) (now : Nat) :
    ((V0.addStamp db customerId phone operator stampId logId now).db = db ∧
      ∀ st, (V0.addStamp db customerId phone operator stampId logId now).out ≠ .ok st) ∨
    (∃ customer, V0.findCustomer db customerId phone = some customer ∧
      V0.addStamp db customerId phone operator stampId logId now =
        ⟨{ db with
            stamps := db.stamps ++ [⟨stampId, customer.id, now, false, none, operator⟩],
            logs := db.logs ++ [⟨logId, "stamp", customer.id, operator, none, now⟩] },
          .ok ⟨stampId, customer.id, now, false, none, operator⟩⟩) := by
  by_cases h1 : (customerId.isNone && phone.isNone) = true
  · refine Or.inl ⟨?_, fun st h => ?_⟩
    · simp [V0.addStamp, h1]
    · simp [V0.addStamp, h1] at h
  · cases hfind : V0.findCustomer db customerId phone with
    | none =>
      refine Or.inl ⟨?_, fun st h => ?_⟩
      · simp [V0.addStamp, h1, hfind]
      · simp [V0.addStamp, h1, hfind] at h
    | some customer =>
      by_cases h2 : 3 ≤
          (db.stamps.filter (fun s => s.customerId == customer.id && dayOf s.createdAt == dayOf now)).length
      · refine Or.inl ⟨?_, fun st h => ?_⟩
        · simp [V0.addStamp, h1, hfind, h2]
        · simp [V0.addStamp, h1, hfind, h2] at h
      · refine Or.inr ⟨customer, rfl, ?_⟩
        simp [V0.addStamp, h1, hfind, h2]

/-- The part_000 customer-registration route never touches the stamp
collection. -/
theorem createCustomer_preserves_stamps (db : V0.Db) (naam phone : Option String)
    (newId : String) (now : Nat) :
    (V0.createCustomer db naam phone newId now).db.stamps = db.stamps := by
  unfold V0.createCustomer
  cases naam with
  | none => rfl
  | some n =>
    cases phone with
    | none => rfl
    | some p =>
      cases hf : db.customers.find? (fun c => c.phone == p) with
      | none => simp only [hf]
      | some c => simp only [hf]

/-! ### Claims -/

/-- C7, counterexample: the claim says `load()` yields an empty Document when
the on-disk file is absent or malformed instead of propagating an error, but
`readDb` of `src/unnamed/part_000` rethrows the read/parse error to its
caller. -/
theorem readDb_part000_propagates_failure : V0.readDb none = Except.error () := rfl

/-- C7, amended: in the part_001 variant (`readDB`) and the cached-counter
variant (`loadDatabase`), loading with an absent or malformed on-disk file
yields the empty Document, whose collections are all empty, and a parsable
file is returned as-is; the part_000 variant's `readDb` instead propagates the
failure. -/
theorem load_yields_empty_document_on_bad_disk :
    V1.readDB none = V1.emptyDb ∧ (∀ d, V1.readDB (some d) = d) ∧
    V2.loadDatabase V2.emptyDb none = V2.emptyDb ∧
    (∀ cur d, V2.loadDatabase cur (some d) = d) ∧
    V1.emptyDb.customers = [] ∧ V1.emptyDb.stamps = [] ∧
    V1.emptyDb.redemptions = [] ∧ V1.emptyDb.logs = [] ∧
    V1.emptyDb.apiKeys = [] ∧ V1.emptyDb.operators = [] ∧ V1.emptyDb.tokens = [] ∧
    V2.emptyDb.customers = [] ∧ V2.emptyDb.stamps = [] ∧
    V2.emptyDb.redemptions = [] ∧ V2.emptyDb.logs = [] :=
  ⟨rfl, fun _ => rfl, rfl, fun _ _ => rfl, rfl, rfl, rfl, rfl, rfl, rfl, rfl,
    rfl, rfl, rfl, rfl⟩

/-- C2, counterexample: the cached-counter variant's stamp route enforces no
daily cap — a customer with 3 stamps created today receives a 4th one on the
same day instead of a RateLimited failure. -/
theorem no_daily_cap_in_cached_variant :
    (((syncDb 3).stamps.filter
      (fun s => s.customerId == "c1" && dayOf s.timestamp == dayOf 0)).length = 3) ∧
    (V2.addStamp (syncDb 3) (some "c1") "s99" "l99" 0).out = .ok ⟨"s99", "c1", 0⟩ 4 ∧
    ((V2.addStamp (syncDb 3) (some "c1") "s99" "l99" 0).db.stamps.filter
      (fun s => s.customerId == "c1" && dayOf s.timestamp == dayOf 0)).length = 4 := by decide

/-- C2, amended: in the part_000 and part_001 variants `issueStamp` fails with
RateLimited and leaves the document unchanged exactly when at least 3 stamps
(redeemed or not) were created for that customer on the current calendar day,
and below the cap the stamp is appended; part_001's failure reports the
customer's current today-count while part_000's failure outcome carries no
count; the cached-counter variant enforces no daily cap at all. -/
theorem issueStamp_daily_rate_limit (db1 : V1.Db) (customerId1 phone1 : Option String)
    (operator1 stampId1 : String) (now1 : Nat) (customer1 : V1.Customer)
    (hfind1 : V1.findCustomer db1 customerId1 phone1 = some customer1)
    (db0 : V0.Db) (customerId0 phone0 : Option String)
    (operator0 stampId0 logId0 : String) (now0 : Nat) (customer0 : V0.Customer)
    (hfind0 : V0.findCustomer db0 customerId0 phone0 = some customer0) :
    (3 ≤ V1.stampsTodayForCustomer db1 customer1.id now1 →
      V1.addStamp db1 customerId1 phone1 operator1 stampId1 now1 =
        ⟨db1, .rateLimited (V1.stampsTodayForCustomer db1 customer1.id now1), []⟩) ∧
    (V1.stampsTodayForCustomer db1 customer1.id now1 < 3 →
      (V1.addStamp db1 customerId1 phone1 operator1 stampId1 now1).db.stamps =
        db1.stamps ++ [⟨stampId1, customer1.id, now1, operator1⟩]) ∧
    (3 ≤ (db0.stamps.filter (fun s => s.customerId == customer0.id &&
        dayOf s.createdAt == dayOf now0)).length →
      V0.addStamp db0 customerId0 phone0 operator0 stampId0 logId0 now0 =
        ⟨db0, .rateLimited⟩) ∧
    ((db0.stamps.filter (fun s => s.customerId == customer0.id &&
        dayOf s.createdAt == dayOf now0)).length < 3 →
      (V0.addStamp db0 customerId0 phone0 operator0 stampId0 logId0 now0).db.stamps =
        db0.stamps ++ [⟨stampId0, customer0.id, now0, false, none, operator0⟩]) := by
  have hguard0 : (customerId0.isNone && phone0.isNone) = false := by
    cases customerId0 with
    | some cid => rfl
    | none =>
      cases phone0 with
      | some p => rfl
      | none =>
        have hp := List.find?_some hfind0
        simp at hp
  refine ⟨?_, ?_, ?_, ?_⟩
  · intro h
    simp only [V1.addStamp, hfind1, if_pos h]
  · intro h
    simp only [V1.addStamp, hfind1, if_neg (Nat.not_le.mpr h)]
  · intro h
    simp only [V0.addStamp, hguard0, Bool.false_eq_true, if_false, hfind0, if_pos h]
  · intro h
    simp only [V0.addStamp, hguard0, Bool.false_eq_true, if_false, hfind0,
      if_neg (Nat.not_le.mpr h)]

/-- C2, amended, witness: customers with 3 stamps issued today in both
variants (the part_000 one including an already-redeemed stamp); the 4th
same-day request fails with `todayCount = 3` in part_001 and with the
count-less RateLimited outcome in part_000, and neither adds a stamp. -/
theorem issueStamp_daily_rate_limit_witness :
    V1.findCustomer capDb (some "cust1") none = some ⟨"cust1", "Jan", "0600000000", "", 0⟩ ∧
    V0.findCustomer capDb0 (some "cust1") none = some ⟨"cust1", "Jan", "0600000000", 0⟩ ∧
    3 ≤ V1.stampsTodayForCustomer capDb "cust1" 400 ∧
    3 ≤ (capDb0.stamps.filter (fun s => s.customerId == "cust1" &&
      dayOf s.createdAt == dayOf 400)).length ∧
    V1.addStamp capDb (some "cust1") none "op" "s4" 400 = ⟨capDb, .rateLimited 3, []⟩ ∧
    V0.addStamp capDb0 (some "cust1") none "op" "s4" "l4" 400 = ⟨capDb0, .rateLimited⟩ :=
  ⟨by decide, by decide, by decide, by decide,
    (issueStamp_daily_rate_limit capDb (some "cust1") none "op" "s4" 400
      ⟨"cust1", "Jan", "0600000000", "", 0⟩ (by decide) capDb0 (some "cust1") none "op"
      "s4" "l4" 400 ⟨"cust1", "Jan", "0600000000", 0⟩ (by decide)).1 (by decide),
    (issueStamp_daily_rate_limit capDb (some "cust1") none "op" "s4" 400
      ⟨"cust1", "Jan", "0600000000", "", 0⟩ (by decide) capDb0 (some "cust1") none "op"
      "s4" "l4" 400 ⟨"cust1", "Jan", "0600000000", 0⟩ (by decide)).2.2.1 (by decide)⟩

/-- C6: when the customer's stamp count is strictly below the reward
threshold, `redeemStamps` fails reporting the current and required counts, and
the whole step leaves the document unchanged (no stamps touched, no
redemption, no log entry) and emits no notification. -/
theorem redeem_insufficient_balance_atomic (db : V1.Db) (customerId phone : Option String)
    (operator note redemptionId : String) (threshold now : Nat) (customer : V1.Customer)
    (hfind : V1.findCustomer db customerId phone = some customer)
    (hlow : (db.stamps.filter (fun s => s.customerId == customer.id)).length < threshold) :
    V1.redeem db customerId phone operator note redemptionId threshold now =
      ⟨db, .insufficient (db.stamps.filter (fun s => s.customerId == customer.id)).length
        threshold, []⟩ := by
  simp only [V1.redeem, hfind, if_pos hlow]

/-- C6, witness: the nine-stamp customer redeemed at threshold 10 fails with
`current = 9, required = 10` and the document is unchanged. -/
theorem redeem_insufficient_balance_atomic_witness :
    V1.findCustomer nineDb (some "cust1") none = some ⟨"cust1", "Jan", "0600000000", "", 0⟩ ∧
    (nineDb.stamps.filter (fun s => s.customerId == "cust1")).length < 10 ∧
    V1.redeem nineDb (some "cust1") none "op" "" "r1" 10 100 =
      ⟨nineDb, .insufficient 9 10, []⟩ :=
  ⟨by decide, by decide,
    redeem_insufficient_balance_atomic nineDb (some "cust1") none "op" "" "r1" 10 100
      ⟨"cust1", "Jan", "0600000000", "", 0⟩ (by decide) (by decide)⟩

/-- C9: when no valid admin API key is presented, a bearer token that is
absent from the stored token collection or whose `expiresAt` lies before the
current time never authorizes: the stamp and redeem endpoints reject with 401,
leave the document unchanged and emit nothing; conversely an operator resolves
from a token only when a stored, unexpired token matching it exists together
with its owning operator. -/
theorem expired_tokens_never_authorize (allowed : List String)
    (apiKey xOperator token : Option String) (db : V1.Db) (now : Nat)
    (customerId phone : Option String) (stampId note redemptionId : String)
    (threshold : Nat)
    (hkey : ∀ k, apiKey = some k → allowed.contains k = false) :
    ((∀ tk, token = some tk → ∀ t ∈ db.tokens, t.token = tk → t.expiresAt < now) →
      V1.getOperatorFromRequest allowed apiKey xOperator token db now = none ∧
      V1.stampsEndpoint allowed apiKey xOperator token db customerId phone stampId now =
        (db, .unauthorized, []) ∧
      V1.redeemEndpoint allowed apiKey xOperator token db customerId phone note
        redemptionId threshold now = (db, .unauthorized, [])) ∧
    (∀ opName, V1.getOperatorFromRequest allowed apiKey xOperator token db now = some opName →
      ∃ tk t, token = some tk ∧ t ∈ db.tokens ∧ t.token = tk ∧ now ≤ t.expiresAt ∧
        ∃ o, o ∈ db.operators ∧ o.id = t.operatorId ∧ opName = o.name) := by
  have hresolve :
      (∀ tk, token = some tk → ∀ t ∈ db.tokens, t.token = tk → t.expiresAt < now) →
      V1.resolveToken db token now = none := by
    intro hexp
    cases htok : token with
    | none => rfl
    | some tk =>
      cases hfind : db.tokens.find? (fun t => t.token == tk) with
      | none => simp [V1.resolveToken, hfind]
      | some t =>
        have ht : t.token = tk := by simpa using List.find?_some hfind
        have hmem : t ∈ db.tokens := List.mem_of_find?_eq_some hfind
        simp [V1.resolveToken, hfind, hexp tk htok t hmem ht]
  have hauthnone :
      (∀ tk, token = some tk → ∀ t ∈ db.tokens, t.token = tk → t.expiresAt < now) →
      V1.getOperatorFromRequest allowed apiKey xOperator token db now = none := by
    intro hexp
    cases hk : apiKey with
    | none => simp [V1.getOperatorFromRequest, hresolve hexp]
    | some k =>
      have hnm : k ∉ allowed := by simpa using hkey k hk
      simp [V1.getOperatorFromRequest, hnm, hresolve hexp]
  have hfromToken : ∀ opName, V1.resolveToken db token now = some opName →
      ∃ tk t, token = some tk ∧ t ∈ db.tokens ∧ t.token = tk ∧ now ≤ t.expiresAt ∧
        ∃ o, o ∈ db.operators ∧ o.id = t.operatorId ∧ opName = o.name := by
    intro opName hres
    cases htok : token with
    | none => rw [htok] at hres; simp [V1.resolveToken] at hres
    | some tk =>
      rw [htok] at hres
      cases hfind : db.tokens.find? (fun t => t.token == tk) with
      | none => simp [V1.resolveToken, hfind] at hres
      | some t =>
        by_cases hexp : t.expiresAt < now
        · simp [V1.resolveToken, hfind, hexp] at hres
        · cases hop : db.operators.find? (fun o => o.id == t.operatorId) with
          | none => simp [V1.resolveToken, hfind, hexp, hop] at hres
          | some o =>
            simp only [V1.resolveToken, hfind, if_neg hexp, hop, Option.some.injEq] at hres
            exact ⟨tk, t, rfl, List.mem_of_find?_eq_some hfind,
              by simpa using List.find?_some hfind, Nat.le_of_not_lt hexp,
              o, List.mem_of_find?_eq_some hop,
              by simpa using List.find?_some hop, hres.symm⟩
  constructor
  · intro hexp
    refine ⟨hauthnone hexp, ?_, ?_⟩
    · simp [V1.stampsEndpoint, hauthnone hexp]
    · simp [V1.redeemEndpoint, hauthnone hexp]
  · intro opName hsome
    cases hk : apiKey with
    | none =>
      rw [hk] at hsome
      simp only [V1.getOperatorFromRequest] at hsome
      exact hfromToken opName hsome
    | some k =>
      rw [hk] at hsome
      simp only [V1.getOperatorFromRequest, hkey k hk, Bool.false_eq_true, if_false] at hsome
      exact hfromToken opName hsome

/-- C9, witness: with no API key and a token that expired at time 5, a stamp
request at time 10 is rejected with 401 and the document is unchanged. -/
theorem expired_tokens_never_authorize_witness :
    (∀ tk, (some "tok1" : Option String) = some tk →
      ∀ t ∈ expiredDb.tokens, t.token = tk → t.expiresAt < 10) ∧
    V1.stampsEndpoint [] none none (some "tok1") expiredDb (some "cust1") none "s1" 10 =
      (expiredDb, .unauthorized, []) :=
  ⟨by decide,
    ((expired_tokens_never_authorize [] none none (some "tok1") expiredDb 10
      (some "cust1") none "s1" "" "r1" 10
      (fun k h => Option.noConfusion h)).1 (by decide)).2.1⟩

/-- C10: the cached-counter redeem route accepts any integer `stampsRequired`
with no positivity check; whenever the cached counter is at least
`stampsRequired` — including zero and negative values — the redemption
succeeds with `stampsUsed = stampsRequired` and the counter becomes
`stamps - stampsRequired`, so a negative `stampsRequired` increases the
customer's balance. -/
theorem redeem_accepts_unvalidated_size (db : V2.Db) (cid : String) (stampsRequired : Int)
    (redemptionId logId : String) (now : Nat) (customer : V2.Customer)
    (hfind : db.customers.find? (fun c => c.id == cid) = some customer)
    (hbal : stampsRequired ≤ customer.stamps) :
    (V2.redeem db (some cid) stampsRequired redemptionId logId now).out =
      .ok ⟨redemptionId, cid, stampsRequired, now⟩ (customer.stamps - stampsRequired) ∧
    (V2.redeem db (some cid) stampsRequired redemptionId logId now).db.redemptions =
      db.redemptions ++ [⟨redemptionId, cid, stampsRequired, now⟩] ∧
    V2.reportedBalance (V2.redeem db (some cid) stampsRequired redemptionId logId now).db cid =
      some (customer.stamps - stampsRequired) ∧
    (stampsRequired < 0 → customer.stamps < customer.stamps - stampsRequired) := by
  have hnot : ¬customer.stamps < stampsRequired := Int.not_lt.mpr hbal
  refine ⟨?_, ?_, ?_, fun hneg => by omega⟩
  · simp [V2.redeem, hfind, hnot]
  · simp [V2.redeem, hfind, hnot]
  · simp only [V2.redeem, hfind, hnot, if_false]
    unfold V2.reportedBalance
    rw [find?_updateFirst (fun c => c.id == cid)
      (fun c => { c with stamps := c.stamps - stampsRequired }) (fun x hx => hx) db.customers]
    rw [hfind]
    rfl

/-- C10, witness: a customer with balance 0 redeemed with
`stampsRequired = -5` succeeds and ends with balance 5. -/
theorem redeem_accepts_unvalidated_size_witness :
    zeroDb.customers.find? (fun c => c.id == "c1") =
      some ⟨"c1", "Alice", "alice@x", "06", 0, 0⟩ ∧
    ((-5 : Int) ≤ 0 ∧
      (V2.redeem zeroDb (some "c1") (-5) "r1" "l1" 7).out = .ok ⟨"r1", "c1", -5, 7⟩ 5 ∧
      V2.reportedBalance (V2.redeem zeroDb (some "c1") (-5) "r1" "l1" 7).db "c1" = some 5) :=
  ⟨by decide, by decide,
    by simpa using (redeem_accepts_unvalidated_size zeroDb "c1" (-5) "r1" "l1" 7
      ⟨"c1", "Alice", "alice@x", "06", 0, 0⟩ (by decide) (by decide)).1,
    by simpa using (redeem_accepts_unvalidated_size zeroDb "c1" (-5) "r1" "l1" 7
      ⟨"c1", "Alice", "alice@x", "06", 0, 0⟩ (by decide) (by decide)).2.2.1⟩

/-- C3, counterexample: in the cached-counter variant registration dedups on
email, not phone.  After registering Alice with phone 0600000000, registering
Bob with the same phone but another email creates a second Customer record
with a different id, and re-registering Alice's email is answered with a
Conflict error instead of the existing customer. -/
theorem register_phone_idempotency_fails_in_cached_variant :
    (V2.registerCustomer dupDb (some "Bob") (some "bob@x") (some "0600000000")
        "c2" "l2" 1).db.customers.map (fun c => (c.id, c.phone)) =
      [("c1", "0600000000"), ("c2", "0600000000")] ∧
    V2.registerCustomer dupDb (some "Eve") (some "alice@x") (some "0700000000") "c3" "l3" 1 =
      ⟨dupDb, .conflict "c1", []⟩ := by decide

/-- C3, amended: registration keyed on phone is idempotent in the part_000
variant — a second call with the same phone returns the same customer record
(not an error) and leaves the document unchanged, the two calls together
adding at most one Customer — while the cached-counter variant dedups on email
and reports duplicates as a Conflict error, so the same phone can occupy
several Customer records there. -/
theorem register_idempotent_on_phone_part000 (db : V0.Db) (naam naam2 phone : String)
    (id1 id2 : String) (t1 t2 : Nat) :
    ∃ c1, ((V0.createCustomer db (some naam) (some phone) id1 t1).out = .existing c1 ∨
        (V0.createCustomer db (some naam) (some phone) id1 t1).out = .created c1) ∧
      c1.phone = phone ∧
      V0.createCustomer (V0.createCustomer db (some naam) (some phone) id1 t1).db
          (some naam2) (some phone) id2 t2 =
        ⟨(V0.createCustomer db (some naam) (some phone) id1 t1).db, .existing c1⟩ ∧
      (V0.createCustomer db (some naam) (some phone) id1 t1).db.customers.length ≤
        db.customers.length + 1 := by
  cases hfind : db.customers.find? (fun c => c.phone == phone) with
  | some c =>
    refine ⟨c, Or.inl ?_, ?_, ?_, ?_⟩
    · simp [V0.createCustomer, hfind]
    · simpa using List.find?_some hfind
    · simp [V0.createCustomer, hfind]
    · simp [V0.createCustomer, hfind]
  | none =>
    refine ⟨⟨id1, naam, phone, t1⟩, Or.inr ?_, rfl, ?_, ?_⟩
    · simp [V0.createCustomer, hfind]
    · simp only [V0.createCustomer, hfind]
      rw [List.find?_append, hfind]
      simp [V0.createCustomer, hfind]
    · simp [V0.createCustomer, hfind]

/-- C1: a redemption for a customer with at least `count` non-redeemed stamps
succeeds and selects exactly the `count` oldest non-redeemed stamps in
ascending `createdAt` order; consequently for two non-redeemed stamps of the
customer, a strictly newer one is never redeemed while a strictly older one
is left non-redeemed. -/
theorem redeem_fifo_oldest_first (db : V0.Db) (customerId phone : Option String)
    (count : Nat) (operator redemptionId logId : String) (now : Nat)
    (customer : V0.Customer)
    (hfind : V0.findCustomer db customerId phone = some customer)
    (hcount : 1 ≤ count)
    (hnodup : (db.stamps.map (fun s => s.id)).Nodup)
    (henough : count ≤
      (db.stamps.filter (fun s => s.customerId == customer.id && !s.redeemed)).length) :
    ∃ redemption,
      (V0.redeem db customerId phone count operator redemptionId logId now).out =
        .ok redemption ∧
      redemption.stampIds =
        (((db.stamps.filter (fun s => s.customerId == customer.id && !s.redeemed)).insertionSort
          V0.byCreatedAt).take count).map (fun s => s.id) ∧
      redemption.stampIds.length = count ∧
      (V0.redeem db customerId phone count operator redemptionId logId now).db.stamps =
        db.stamps.map (V0.markRedeemed redemption.stampIds now) ∧
      (∀ A B : V0.Stamp, A ∈ db.stamps → B ∈ db.stamps →
        A.customerId = customer.id → B.customerId = customer.id →
        A.redeemed = false → B.redeemed = false →
        A.createdAt < B.createdAt →
        B.id ∈ redemption.stampIds → A.id ∈ redemption.stampIds) := by
  have hguard : (customerId.isNone && phone.isNone) = false := by
    cases customerId with
    | some cid => rfl
    | none =>
      cases phone with
      | some p => rfl
      | none =>
        have hp := List.find?_some hfind
        simp at hp
  have hc1 : ¬count < 1 := by omega
  have hlensort :
      ((db.stamps.filter (fun s => s.customerId == customer.id && !s.redeemed)).insertionSort
        V0.byCreatedAt).length =
      (db.stamps.filter (fun s => s.customerId == customer.id && !s.redeemed)).length :=
    (List.perm_insertionSort _ _).length_eq
  have hnlt :
      ¬((db.stamps.filter (fun s => s.customerId == customer.id && !s.redeemed)).insertionSort
        V0.byCreatedAt).length < count := by
    rw [hlensort]; omega
  refine ⟨⟨redemptionId, customer.id,
    (((db.stamps.filter (fun s => s.customerId == customer.id && !s.redeemed)).insertionSort
      V0.byCreatedAt).take count).map (fun s => s.id), count, operator, now⟩, ?_, rfl, ?_, ?_, ?_⟩
  · simp only [V0.redeem, hguard, Bool.false_eq_true, if_false, if_neg hc1, hfind,
      if_neg hnlt]
  · rw [List.length_map, List.length_take, hlensort]
    omega
  · simp only [V0.redeem, hguard, Bool.false_eq_true, if_false, if_neg hc1, hfind,
      if_neg hnlt]
  · intro A B hA hB hAc hBc hAr hBr hlt hBid
    obtain ⟨b', hb'take, hb'id⟩ := List.mem_map.mp hBid
    have hb'sorted :
        b' ∈ (db.stamps.filter (fun s => s.customerId == customer.id && !s.redeemed)).insertionSort
          V0.byCreatedAt := List.mem_of_mem_take hb'take
    have hb'stamps : b' ∈ db.stamps :=
      List.mem_of_mem_filter ((List.mem_insertionSort _).mp hb'sorted)
    have hb'B : b' = B := List.inj_on_of_nodup_map hnodup hb'stamps hB hb'id
    subst hb'B
    have hAfilt : A ∈ db.stamps.filter (fun s => s.customerId == customer.id && !s.redeemed) :=
      List.mem_filter.mpr ⟨hA, by simp [hAc, hAr]⟩
    have hAsorted :
        A ∈ (db.stamps.filter (fun s => s.customerId == customer.id && !s.redeemed)).insertionSort
          V0.byCreatedAt := (List.mem_insertionSort _).mpr hAfilt
    have hsorted :
        ((db.stamps.filter (fun s => s.customerId == customer.id && !s.redeemed)).insertionSort
          V0.byCreatedAt).Pairwise (fun a b => a.createdAt ≤ b.createdAt) :=
      List.sorted_insertionSort V0.byCreatedAt _
    have hAtake := mem_take_of_pairwise_key (fun s => s.createdAt) hsorted hAsorted hb'take hlt
    exact List.mem_map.mpr ⟨A, hAtake, rfl⟩

/-- C1, witness: the ten-stamp customer redeemed at the default threshold 10
succeeds with exactly ten selected stamp ids. -/
theorem redeem_fifo_oldest_first_witness :
    V0.findCustomer fifoDb (some "cust1") none = some ⟨"cust1", "Jan", "0600000000", 0⟩ ∧
    (fifoDb.stamps.map (fun s => s.id)).Nodup ∧
    10 ≤ (fifoDb.stamps.filter (fun s => s.customerId == "cust1" && !s.redeemed)).length ∧
    ∃ redemption,
      (V0.redeem fifoDb (some "cust1") none 10 "op" "r1" "l1" 99).out = .ok redemption ∧
      redemption.stampIds.length = 10 :=
  ⟨by decide, by decide, by decide, by
    obtain ⟨r, h1, _, h3, _, _⟩ :=
      redeem_fifo_oldest_first fifoDb (some "cust1") none 10 "op" "r1" "l1" 99
        ⟨"cust1", "Jan", "0600000000", 0⟩ (by decide) (by decide) (by decide) (by decide)
    exact ⟨r, h1, h3⟩⟩

/-- C4, counterexample: in the part_001 variant stamps are not immutable —
the redeem route deletes the ten selected stamp records from the collection
outright instead of marking them redeemed. -/
theorem redemption_deletes_stamps_in_part001 :
    delDb.stamps.length = 10 ∧
    (V1.redeem delDb (some "cust1") none "op" "" "r1" 10 99).out =
      .ok ⟨"r1", "cust1", 99, "op", ""⟩ ∧
    (V1.redeem delDb (some "cust1") none "op" "" "r1" 10 99).db.stamps = [] := by decide

/-- C4, amended: in the part_000 variant stamps are never deleted and the
`redeemed` flag is monotonic with redemption the only mutator — a redemption
preserves the stamp ids, leaves already-redeemed stamps untouched, and only
sets the flag on stamps referenced by the created redemption; failed
redemptions and stamp issuance change no existing stamp (issuance only
appends a fresh non-redeemed one) and registration never touches stamps.  In
the part_001 variant a redemption instead deletes the redeemed stamps. -/
theorem stamps_immutable_in_part000 (db : V0.Db) (customerId phone naam : Option String)
    (count : Nat) (operator stampId redemptionId logId newId : String) (now : Nat)
    (hnodup : (db.stamps.map (fun s => s.id)).Nodup) :
    (∀ redemption,
      (V0.redeem db customerId phone count operator redemptionId logId now).out =
        .ok redemption →
      (V0.redeem db customerId phone count operator redemptionId logId now).db.stamps.map
          (fun s => s.id) = db.stamps.map (fun s => s.id) ∧
      (∀ s ∈ db.stamps, s.redeemed = true →
        s ∈ (V0.redeem db customerId phone count operator redemptionId logId now).db.stamps) ∧
      (∀ s' ∈ (V0.redeem db customerId phone count operator redemptionId logId now).db.stamps,
        s'.redeemed = true →
        s'.id ∈ redemption.stampIds ∨ ∃ s ∈ db.stamps, s.redeemed = true ∧ s'.id = s.id)) ∧
    ((∀ r, (V0.redeem db customerId phone count operator redemptionId logId now).out ≠ .ok r) →
      (V0.redeem db customerId phone count operator redemptionId logId now).db = db) ∧
    (∀ st, (V0.addStamp db customerId phone operator stampId logId now).out = .ok st →
      (V0.addStamp db customerId phone operator stampId logId now).db.stamps =
        db.stamps ++ [st] ∧ st.redeemed = false) ∧
    ((∀ st, (V0.addStamp db customerId phone operator stampId logId now).out ≠ .ok st) →
      (V0.addStamp db customerId phone operator stampId logId now).db = db) ∧
    (V0.createCustomer db naam phone newId now).db.stamps = db.stamps := by
  refine ⟨?_, ?_, ?_, ?_, createCustomer_preserves_stamps db naam phone newId now⟩
  · intro redemption hok
    rcases redeem_cases_part000 db customerId phone count operator redemptionId logId now with
      ⟨hdb, hne⟩ | ⟨customer, hfind, henough, heq⟩
    · exact absurd hok (hne redemption)
    · have hids : redemption =
          ⟨redemptionId, customer.id,
            (((db.stamps.filter (fun s => s.customerId == customer.id && !s.redeemed)).insertionSort
              V0.byCreatedAt).take count).map (fun s => s.id), count, operator, now⟩ := by
        rw [heq] at hok
        exact (V0.RedeemOutcome.ok.injEq _ _).mp hok.symm
      rw [heq]
      have hsub : ∀ i ∈ redemption.stampIds,
          ∃ x ∈ db.stamps, (x.customerId == customer.id && !x.redeemed) = true ∧ x.id = i := by
        intro i hi
        rw [hids] at hi
        obtain ⟨x, hxtake, hxid⟩ := List.mem_map.mp hi
        have hxfilt := (List.mem_insertionSort _).mp (List.mem_of_mem_take hxtake)
        exact ⟨x, (List.mem_filter.mp hxfilt).1, (List.mem_filter.mp hxfilt).2, hxid⟩
      refine ⟨?_, ?_, ?_⟩
      · rw [List.map_map]
        exact List.map_congr_left (fun s _ => markRedeemed_id _ now s)
      · intro s hs hsred
        have hnotin : s.id ∉ redemption.stampIds := by
          intro hin
          obtain ⟨x, hx, hxprop, hxid⟩ := hsub s.id hin
          have hx_eq : x = s := List.inj_on_of_nodup_map hnodup hx hs hxid
          rw [hx_eq, hsred] at hxprop
          simp at hxprop
        have hmark : V0.markRedeemed redemption.stampIds now s = s := by
          simp [V0.markRedeemed, hnotin]
        simp only [hids] at hmark ⊢
        exact List.mem_map.mpr ⟨s, hs, hmark⟩
      · intro s' hs' hs'red
        simp only [hids] at hs' ⊢
        obtain ⟨s, hs, hmark⟩ := List.mem_map.mp hs'
        by_cases hin : s.id ∈
            (((db.stamps.filter (fun s => s.customerId == customer.id && !s.redeemed)).insertionSort
              V0.byCreatedAt).take count).map (fun s => s.id)
        · left
          rw [← hmark, markRedeemed_id]
          exact hin
        · right
          have hmark_eq : V0.markRedeemed
              ((((db.stamps.filter (fun s => s.customerId == customer.id && !s.redeemed)).insertionSort
                V0.byCreatedAt).take count).map (fun s => s.id)) now s = s := by
            simp only [V0.markRedeemed]
            split
            · rename_i hc
              exact absurd (by simpa using hc) (by simpa using hin)
            · rfl
          rw [hmark_eq] at hmark
          subst hmark
          exact ⟨_, hs, hs'red, rfl⟩
  · intro hne
    rcases redeem_cases_part000 db customerId phone count operator redemptionId logId now with
      ⟨hdb, _⟩ | ⟨customer, hfind, henough, heq⟩
    · exact hdb
    · exact absurd (by rw [heq]) (hne
        ⟨redemptionId, customer.id,
          (((db.stamps.filter (fun s => s.customerId == customer.id && !s.redeemed)).insertionSort
            V0.byCreatedAt).take count).map (fun s => s.id), count, operator, now⟩)
  · intro st hok
    rcases addStamp_cases_part000 db customerId phone operator stampId logId now with
      ⟨hdb, hne⟩ | ⟨customer, hfind, heq⟩
    · exact absurd hok (hne st)
    · have hst : st = ⟨stampId, customer.id, now, false, none, operator⟩ := by
        rw [heq] at hok
        exact ((V0.StampOutcome.ok.injEq _ _).mp hok).symm
      rw [heq, hst]
      exact ⟨rfl, rfl⟩
  · intro hne
    rcases addStamp_cases_part000 db customerId phone operator stampId logId now with
      ⟨hdb, _⟩ | ⟨customer, hfind, heq⟩
    · exact hdb
    · exact absurd (by rw [heq]) (hne ⟨stampId, customer.id, now, false, none, operator⟩)

/-- C4, amended, witness: on a document with one redeemed and one unredeemed
stamp the redeem route (redeeming 1) keeps both stamp records, and the first
conjunct's conclusions hold concretely. -/
theorem stamps_immutable_in_part000_witness :
    (monoDb.stamps.map (fun s => s.id)).Nodup ∧
    ((V0.redeem monoDb (some "cust1") none 1 "op" "r1" "l1" 9).db.stamps.map
      (fun s => s.id) = monoDb.stamps.map (fun s => s.id)) :=
  ⟨by decide, by
    have h := (stamps_immutable_in_part000 monoDb (some "cust1") none none 1 "op" "s9" "r1"
      "l1" "c9" 9 (by decide)).1 ⟨"r1", "cust1", ["s1"], 1, "op", 9⟩ (by decide)
    exact h.1⟩

/-- C5, counterexample: in the cached-counter variant the reported balance is
the stored `stamps` field, and it desyncs from the Stamp collection — after a
customer accrues 10 stamps through the stamp route and redeems them, the
routes report balance 0 while the collection still holds all 10 of the
customer's (never marked, never deleted) stamp records. -/
theorem cached_balance_desyncs_from_stamp_collection :
    V2.reportedBalance desyncStep.db "c1" = some 0 ∧
    (desyncStep.db.stamps.filter (fun s => s.customerId == "c1")).length = 10 := by decide

/-- C5, amended: the derived-balance claim holds for the part_000 variant,
whose customer read reports `stampsTotal` as the count of the customer's
non-redeemed stamps in the Stamp collection; the cached-counter variant
instead stores a `stamps` counter on the Customer record which redemption
decrements while leaving the Stamp collection untouched, so its reported
balance can desync from the collection. -/
theorem balance_derived_in_part000_cached_in_index (dbA : V0.Db)
    (phone idq : Option String) (nowA : Nat) (view : V0.CustomerView)
    (hview : V0.getCustomer dbA phone idq nowA = some view)
    (dbB : V2.Db) (cid : String) (r : Int) (rid lid : String) (nowB : Nat)
    (customer : V2.Customer)
    (hfindB : dbB.customers.find? (fun c => c.id == cid) = some customer)
    (hbal : r ≤ customer.stamps) :
    view.stampsTotal =
      (dbA.stamps.filter (fun s => s.customerId == view.customer.id && !s.redeemed)).length ∧
    (V2.redeem dbB (some cid) r rid lid nowB).db.stamps = dbB.stamps ∧
    V2.reportedBalance (V2.redeem dbB (some cid) r rid lid nowB).db cid =
      some (customer.stamps - r) := by
  have hnot : ¬customer.stamps < r := Int.not_lt.mpr hbal
  refine ⟨?_, ?_, ?_⟩
  · cases hfind : dbA.customers.find? (fun c =>
        (match phone with | some p => c.phone == p | none => false) ||
        (match idq with | some i => c.id == i | none => false)) with
    | none =>
      rw [V0.getCustomer, hfind] at hview
      exact absurd hview (by simp)
    | some c =>
      rw [V0.getCustomer, hfind] at hview
      obtain rfl := ((Option.some.injEq _ _).mp hview)
      rfl
  · simp [V2.redeem, hfindB, hnot]
  · simp only [V2.redeem, hfindB, hnot, if_false]
    unfold V2.reportedBalance
    rw [find?_updateFirst (fun c => c.id == cid)
      (fun c => { c with stamps := c.stamps - r }) (fun x hx => hx) dbB.customers]
    rw [hfindB]
    rfl

/-- C5, amended, witness: the part_000 customer read on the ten-stamp document
derives balance 10 from the collection; the cached-counter redeem leaves the
collection at 10 records while reporting 0. -/
theorem balance_derived_in_part000_cached_in_index_witness :
    V0.getCustomer fifoDb (some "0600000000") none 5 =
      some ⟨⟨"cust1", "Jan", "0600000000", 0⟩, 10, 10⟩ ∧
    (syncDb 10).customers.find? (fun c => c.id == "c1") =
      some ⟨"c1", "Alice", "alice@x", "0600000000", 10, 0⟩ ∧
    ((10 : Int) ≤ 10 ∧
      (V2.redeem (syncDb 10) (some "c1") 10 "r1" "rl" 99).db.stamps = (syncDb 10).stamps ∧
      V2.reportedBalance (V2.redeem (syncDb 10) (some "c1") 10 "r1" "rl" 99).db "c1" =
        some 0) :=
  ⟨by decide, by decide, by decide,
    by simpa using (balance_derived_in_part000_cached_in_index fifoDb (some "0600000000") none 5
      ⟨⟨"cust1", "Jan", "0600000000", 0⟩, 10, 10⟩ (by decide) (syncDb 10) "c1" 10 "r1" "rl" 99
      ⟨"c1", "Alice", "alice@x", "0600000000", 10, 0⟩ (by decide) (by decide)).2.1,
    by simpa using (balance_derived_in_part000_cached_in_index fifoDb (some "0600000000") none 5
      ⟨⟨"cust1", "Jan", "0600000000", 0⟩, 10, 10⟩ (by decide) (syncDb 10) "c1" 10 "r1" "rl" 99
      ⟨"c1", "Alice", "alice@x", "0600000000", 10, 0⟩ (by decide) (by decide)).2.2⟩

set_option maxRecDepth 40000 in
/-- C8, counterexample: the part_000 variant appends log entries with no
retention bound — a stamp request against a document already holding 1000 log
entries leaves 1001 of them. -/
theorem logs_unbounded_in_part000 :
    fullLogDb.logs.length = 1000 ∧
    (V0.addStamp fullLogDb (some "cust1") none "op" "s1" "lx" 5).db.logs.length = 1001 := by
  exact ⟨by decide, by decide⟩

/-- C8, amended: the retention bound holds only in the cached-counter variant,
whose `addLog` keeps exactly the most recent entries in order: the result is
the tail of the appended list and its length is `min (n+1) 1000`, so it never
exceeds 1000.  The part_000 and part_001 variants push log entries with no
eviction check: a successful part_001 stamp request always appends its log
entry, growing the log by exactly one whatever its current size (part_000's
growth past 1000 is the counterexample). -/
theorem addLog_keeps_most_recent_1000 (logs : List V2.LogEntry) (log : V2.LogEntry)
    (db1 : V1.Db) (customerId1 phone1 : Option String) (operator1 stampId1 : String)
    (now1 : Nat) (customer1 : V1.Customer)
    (hfind1 : V1.findCustomer db1 customerId1 phone1 = some customer1)
    (hcap1 : V1.stampsTodayForCustomer db1 customer1.id now1 < 3) :
    V2.addLog logs log = (logs ++ [log]).drop (logs.length + 1 - 1000) ∧
    (V2.addLog logs log).length = min (logs.length + 1) 1000 ∧
    (V2.addLog logs log).length ≤ 1000 ∧
    (V1.addStamp db1 customerId1 phone1 operator1 stampId1 now1).db.logs =
      db1.logs ++ [⟨"stamp", now1, some customer1.id, some operator1, some stampId1, none⟩] ∧
    ((V1.addStamp db1 customerId1 phone1 operator1 stampId1 now1).db.logs).length =
      db1.logs.length + 1 := by
  have hv1 : (V1.addStamp db1 customerId1 phone1 operator1 stampId1 now1).db.logs =
      db1.logs ++ [⟨"stamp", now1, some customer1.id, some operator1, some stampId1, none⟩] := by
    simp only [V1.addStamp, hfind1, if_neg (Nat.not_le.mpr hcap1)]
  have hv1len : ((V1.addStamp db1 customerId1 phone1 operator1 stampId1 now1).db.logs).length =
      db1.logs.length + 1 := by
    rw [hv1, List.length_append]
    rfl
  unfold V2.addLog
  by_cases h : 1000 < (logs ++ [log]).length
  · rw [if_pos h]
    rw [List.length_append] at h
    refine ⟨by rw [List.length_append]; rfl, ?_, ?_, hv1, hv1len⟩
    · rw [List.length_drop, List.length_append]
      simp only [List.length_singleton]
      omega
    · rw [List.length_drop, List.length_append]
      simp only [List.length_singleton]
      omega
  · rw [if_neg h]
    rw [List.length_append] at h
    simp only [List.length_singleton] at h
    have h0 : logs.length + 1 - 1000 = 0 := by omega
    refine ⟨by rw [h0, List.drop_zero], ?_, ?_, hv1, hv1len⟩
    · rw [List.length_append]
      simp only [List.length_singleton]
      omega
    · rw [List.length_append]
      simp only [List.length_singleton]
      omega

/-- C8, amended, witness: on a part_001 document with an empty log, a
successful stamp request appends exactly its one log entry, and the
cached-counter `addLog` facts are exercised at a concrete entry. -/
theorem addLog_keeps_most_recent_1000_witness :
    V1.findCustomer logDb (some "cust1") none = some ⟨"cust1", "Jan", "0600000000", "", 0⟩ ∧
    V1.stampsTodayForCustomer logDb "cust1" 7 < 3 ∧
    (V1.addStamp logDb (some "cust1") none "op" "s1" 7).db.logs =
      logDb.logs ++ [⟨"stamp", 7, some "cust1", some "op", some "s1", none⟩] ∧
    (V2.addLog [] ⟨"l1", 0, "stamp_added"⟩).length = min 1 1000 :=
  ⟨by decide, by decide,
    (addLog_keeps_most_recent_1000 [] ⟨"l1", 0, "stamp_added"⟩ logDb (some "cust1") none
      "op" "s1" 7 ⟨"cust1", "Jan", "0600000000", "", 0⟩ (by decide) (by decide)).2.2.2.1,
    by simpa using (addLog_keeps_most_recent_1000 [] ⟨"l1", 0, "stamp_added"⟩ logDb
      (some "cust1") none "op" "s1" 7 ⟨"cust1", "Jan", "0600000000", "", 0⟩ (by decide)
      (by decide)).2.1⟩

end StampDieKaart
